import Mathlib

/-!
Verification of the `gke` repository's HTTP stub (`src/main.py`).

The source is a FastAPI application with two routes:

  @app.get("/")        -> root():   {"status": "running", "message": "GKE app deployed securely using Terraform + OIDC"}
  @app.get("/health")  -> health(): {"health": "ok"}

The embedding models the two handler functions exactly as written, and the
hosting framework's dispatch (FastAPI on Starlette): path lookup, the fact
that FastAPI's APIRoute registers exactly the decorated method (GET — it
does not add HEAD the way a plain Starlette Route would), the router's
default redirect_slashes behaviour (307 to the slash-toggled path when that
variant is registered), the default 404 for unknown paths and 405 for known
paths with a disallowed method, and JSONResponse's compact serialization
with `content-type: application/json`.
-/

namespace GkeApp

/-- JSON values, as much of JSON as the program's literals need:
strings and objects (ordered key-value lists, as Python dicts are ordered). -/
inductive Json where
  | str : String → Json
  | obj : List (String × Json) → Json

mutual

/-- Compact JSON serialization, as Starlette's JSONResponse renders content:
json.dumps with separators ("," and ":"), no added whitespace. -/
def Json.serialize : Json → String
  | .str s => "\"" ++ s ++ "\""
  | .obj fields => "\x7b" ++ serializeFields fields ++ "\x7d"

/-- Serialize an object's field list, comma-separated. -/
def serializeFields : List (String × Json) → String
  | [] => ""
  | [kv] => "\"" ++ kv.1 ++ "\":" ++ kv.2.serialize
  | kv :: rest => "\"" ++ kv.1 ++ "\":" ++ kv.2.serialize ++ "," ++ serializeFields rest

end

/-- HTTP request methods. -/
inductive Method where
  | GET | HEAD | POST | PUT | DELETE | PATCH | OPTIONS
deriving DecidableEq, Repr

/-- An HTTP request as the application can observe it: method, path,
query parameters, headers and body. -/
structure Request where
  method : Method
  path : String
  query : List (String × String)
  headers : List (String × String)
  body : String
deriving DecidableEq, Repr

/-- An HTTP response: status code, headers and body. -/
structure Response where
  status : Nat
  headers : List (String × String)
  body : String
deriving DecidableEq, Repr

/-- The `root` handler of src/main.py: a zero-argument function returning
the literal dict left dict-key order intact. -/
def root : Unit → Json := fun _ =>
  Json.obj [("status", Json.str "running"),
            ("message", Json.str "GKE app deployed securely using Terraform + OIDC")]

/-- The `health` handler of src/main.py: a zero-argument function returning
the literal dict. -/
def health : Unit → Json := fun _ => Json.obj [("health", Json.str "ok")]

/-- Methods served by a route registered with `@app.get`: FastAPI's
APIRoute sets the route's method set to exactly the decorated method, GET.
Unlike a plain Starlette Route, APIRoute never adds HEAD. -/
def getMethods : List Method := [Method.GET]

/-- Route table built by the two `@app.get` decorators in src/main.py:
path to (allowed methods, handler). -/
def findRoute : String → Option (List Method × (Unit → Json))
  | "/" => some (getMethods, root)
  | "/health" => some (getMethods, health)
  | _ => none

/-- A successful JSON response as FastAPI's default JSONResponse produces it:
status 200, content-type application/json, the serialized content as body. -/
def jsonResponse (j : Json) : Response :=
  { status := 200,
    headers := [("content-type", "application/json")],
    body := j.serialize }

/-- Starlette's default response for an unknown path. -/
def notFoundResponse : Response :=
  { status := 404,
    headers := [("content-type", "application/json")],
    body := (Json.obj [("detail", Json.str "Not Found")]).serialize }

/-- Starlette's default response for a known path with a disallowed method. -/
def methodNotAllowedResponse : Response :=
  { status := 405,
    headers := [("content-type", "application/json")],
    body := (Json.obj [("detail", Json.str "Method Not Allowed")]).serialize }

/-- Test whether a path's last character is a slash, as Python's
str.endswith does on "/". -/
def endsWithSlash (p : String) : Bool :=
  match p.data.getLast? with
  | some c => c = '/'
  | none => false

/-- The slash-toggled variant of a path, as Starlette's redirect_slashes
logic builds it: when the path ends in "/", all trailing slashes are
stripped (Python rstrip), otherwise one slash is appended. -/
def toggleSlash (p : String) : String :=
  if endsWithSlash p then String.mk ((p.data.reverse.dropWhile (fun c => c = '/')).reverse)
  else p ++ "/"

/-- Starlette's RedirectResponse as the router's redirect_slashes branch
issues it: status 307, a location header, an empty body and no content-type.
The real location header carries the absolute URL; the model keeps its path. -/
def redirectResponse (location : String) : Response :=
  { status := 307, headers := [("location", location)], body := "" }

/-- Dispatch of one request by the application, as Starlette's router does
it with its defaults: look the path up in the route table; on a path match,
a disallowed method gives 405, otherwise the handler runs and its return
value becomes a JSON response; on no path match, redirect_slashes (on by
default) retries with the trailing slash toggled and answers 307 when that
variant is registered, and only otherwise does the request get 404. -/
def handle (req : Request) : Response :=
  match findRoute req.path with
  | some (methods, h) =>
      if req.method ∈ methods then jsonResponse (h ()) else methodNotAllowedResponse
  | none =>
      if req.path ≠ "/" ∧ (findRoute (toggleSlash req.path)).isSome then
        redirectResponse (toggleSlash req.path)
      else notFoundResponse

/-- The application's state. The program declares no mutable state at all,
so the state type is the unit type. -/
def AppState : Type := Unit

/-- The state the application starts in. -/
def initState : AppState := ()

/-- Serving one request from a given state: the new state and the response.
The handlers touch no state, so the state passes through unchanged. -/
def serveOne (s : AppState) (req : Request) : AppState × Response := (s, handle req)

/-- The state after a whole history of requests has been served. -/
def stateAfter (hist : List Request) : AppState :=
  hist.foldl (fun s r => (serveOne s r).1) initState

/-- The response a request receives when issued after a given history. -/
def responseAt (hist : List Request) (req : Request) : Response :=
  (serveOne (stateAfter hist) req).2

/-- Dispatch reads only the request's method and path: any two requests
agreeing on those receive the same response. -/
theorem handle_ext (r₁ r₂ : Request)
    (hm : r₁.method = r₂.method) (hp : r₁.path = r₂.path) :
    handle r₁ = handle r₂ := by
  simp only [handle, hm, hp]

/-- A path different from "/" and "/health" has no entry in the route table. -/
theorem findRoute_eq_none (p : String) (h₁ : p ≠ "/") (h₂ : p ≠ "/health") :
    findRoute p = none := by
  unfold findRoute
  split <;> simp_all

/-- Every history of requests leaves the state where it started. -/
theorem foldl_serveOne_fixed (hist : List Request) (s : AppState) :
    hist.foldl (fun s r => (serveOne s r).1) s = s := by
  induction hist generalizing s with
  | nil => rfl
  | cons r rest ih => exact ih s

/-- C1: a GET request to path "/" receives status 200 and, as body, exactly
the serialized object with keys "status" mapped to "running" and "message"
mapped to "GKE app deployed securely using Terraform + OIDC". -/
theorem C1_get_root (r : Request) (hm : r.method = Method.GET) (hp : r.path = "/") :
    (handle r).status = 200 ∧
    (handle r).body = (Json.obj [("status", Json.str "running"),
      ("message", Json.str "GKE app deployed securely using Terraform + OIDC")]).serialize := by
  rw [handle_ext r ⟨Method.GET, "/", [], [], ""⟩ hm hp]
  exact ⟨rfl, rfl⟩

/-- Witness for C1 at a concrete GET request to "/". -/
theorem C1_get_root_witness :
    (handle ⟨Method.GET, "/", [], [], ""⟩).status = 200 ∧
    (handle ⟨Method.GET, "/", [], [], ""⟩).body = (Json.obj [("status", Json.str "running"),
      ("message", Json.str "GKE app deployed securely using Terraform + OIDC")]).serialize :=
  C1_get_root ⟨Method.GET, "/", [], [], ""⟩ rfl rfl

/-- C2: a GET request to path "/health" receives status 200 and, as body,
exactly the serialized object with the one key "health" mapped to "ok". -/
theorem C2_get_health (r : Request) (hm : r.method = Method.GET) (hp : r.path = "/health") :
    (handle r).status = 200 ∧
    (handle r).body = (Json.obj [("health", Json.str "ok")]).serialize := by
  rw [handle_ext r ⟨Method.GET, "/health", [], [], ""⟩ hm hp]
  exact ⟨rfl, rfl⟩

/-- Witness for C2 at a concrete GET request to "/health". -/
theorem C2_get_health_witness :
    (handle ⟨Method.GET, "/health", [], [], ""⟩).status = 200 ∧
    (handle ⟨Method.GET, "/health", [], [], ""⟩).body
      = (Json.obj [("health", Json.str "ok")]).serialize :=
  C2_get_health ⟨Method.GET, "/health", [], [], ""⟩ rfl rfl

/-- Counterexample to C3 as stated: GET "/health/" has a path that is
neither "/" nor "/health", yet the router's redirect_slashes branch answers
307 (a redirect towards "/health"), not 404. -/
theorem C3_trailing_slash_redirect :
    (handle ⟨Method.GET, "/health/", [], [], ""⟩).status = 307 ∧
    (handle ⟨Method.GET, "/health/", [], [], ""⟩).status ≠ 404 :=
  ⟨rfl, by decide⟩

/-- C3 amended: a GET request to a path other than "/" and "/health" whose
slash-toggled variant is also not registered matches no route (no handler
is dispatched) and receives status 404; when the slash-toggled variant is
registered it receives a 307 redirect instead. -/
theorem C3_unknown_path_404 (r : Request) (_hm : r.method = Method.GET)
    (h₁ : r.path ≠ "/") (h₂ : r.path ≠ "/health")
    (h₃ : toggleSlash r.path ≠ "/") (h₄ : toggleSlash r.path ≠ "/health") :
    findRoute r.path = none ∧ (handle r).status = 404 := by
  have hf := findRoute_eq_none r.path h₁ h₂
  have hf' := findRoute_eq_none (toggleSlash r.path) h₃ h₄
  refine ⟨hf, ?_⟩
  simp [handle, hf, hf', notFoundResponse]

/-- Witness for C3 at a concrete GET request to "/nonexistent". -/
theorem C3_unknown_path_404_witness :
    findRoute "/nonexistent" = none ∧
    (handle ⟨Method.GET, "/nonexistent", [], [], ""⟩).status = 404 :=
  C3_unknown_path_404 ⟨Method.GET, "/nonexistent", [], [], ""⟩ rfl
    (by decide) (by decide) (by decide) (by decide)

/-- C4: a POST request to "/" (whose route is registered with @app.get)
receives status 405, method not allowed. -/
theorem C4_post_root_405 (r : Request) (hm : r.method = Method.POST) (hp : r.path = "/") :
    (handle r).status = 405 := by
  rw [handle_ext r ⟨Method.POST, "/", [], [], ""⟩ hm hp]
  rfl

/-- Witness for C4 at a concrete POST request to "/". -/
theorem C4_post_root_405_witness :
    (handle ⟨Method.POST, "/", [], [], ""⟩).status = 405 :=
  C4_post_root_405 ⟨Method.POST, "/", [], [], ""⟩ rfl rfl

/-- C5: determinism across histories: two requests with the same method and
path, issued after any two request histories, receive byte-identical bodies. -/
theorem C5_deterministic (hist₁ hist₂ : List Request) (r₁ r₂ : Request)
    (hm : r₁.method = r₂.method) (hp : r₁.path = r₂.path) :
    (responseAt hist₁ r₁).body = (responseAt hist₂ r₂).body := by
  simp only [responseAt, serveOne]
  exact congrArg Response.body (handle_ext r₁ r₂ hm hp)

/-- Witness for C5: the same GET request to "/" after two different histories. -/
theorem C5_deterministic_witness :
    (responseAt [] ⟨Method.GET, "/", [], [], ""⟩).body
      = (responseAt [⟨Method.POST, "/x", [], [], "b"⟩] ⟨Method.GET, "/", [], [], ""⟩).body :=
  C5_deterministic [] [⟨Method.POST, "/x", [], [], "b"⟩]
    ⟨Method.GET, "/", [], [], ""⟩ ⟨Method.GET, "/", [], [], ""⟩ rfl rfl

/-- C6: handling requests changes no program state: after any history the
state equals the initial state, the response to a request is independent of
the history before it, and serving one request returns the state unchanged. -/
theorem C6_stateless :
    (∀ hist : List Request, stateAfter hist = initState) ∧
    (∀ (hist₁ hist₂ : List Request) (r : Request), responseAt hist₁ r = responseAt hist₂ r) ∧
    (∀ (s : AppState) (r : Request), (serveOne s r).1 = s) := by
  refine ⟨fun hist => foldl_serveOne_fixed hist initState, ?_, fun s r => rfl⟩
  intro hist₁ hist₂ r
  simp only [responseAt, serveOne]

/-- C7: a request served by the "/" or "/health" handler gets a response
carrying the header content-type: application/json whose body is the
serialization of a JSON value. -/
theorem C7_json_content_type (r : Request)
    (hp : r.path = "/" ∨ r.path = "/health") (hm : r.method ∈ getMethods) :
    ("content-type", "application/json") ∈ (handle r).headers ∧
    ∃ j : Json, (handle r).body = j.serialize := by
  rcases hp with hp | hp <;>
    simp only [handle, hp, findRoute, hm, if_pos, jsonResponse] <;>
    exact ⟨List.mem_singleton.mpr rfl, _, rfl⟩

/-- Witness for C7 at a concrete GET request to "/health". -/
theorem C7_json_content_type_witness :
    ("content-type", "application/json")
      ∈ (handle ⟨Method.GET, "/health", [], [], ""⟩).headers ∧
    ∃ j : Json, (handle ⟨Method.GET, "/health", [], [], ""⟩).body = j.serialize :=
  C7_json_content_type ⟨Method.GET, "/health", [], [], ""⟩ (Or.inr rfl) (by decide)

/-- C8: the handlers consume no part of the request: two GET requests to
the same registered path that differ only in query parameters, headers or
body receive identical responses. -/
theorem C8_input_independent (r₁ r₂ : Request)
    (hm₁ : r₁.method = Method.GET) (hm₂ : r₂.method = Method.GET)
    (hp : r₁.path = r₂.path) (_hreg : (findRoute r₁.path).isSome) :
    handle r₁ = handle r₂ :=
  handle_ext r₁ r₂ (hm₁.trans hm₂.symm) hp

/-- Witness for C8: two GET requests to "/" differing in query, headers and body. -/
theorem C8_input_independent_witness :
    handle ⟨Method.GET, "/", [("a", "1")], [("x-h", "v")], "abc"⟩
      = handle ⟨Method.GET, "/", [], [], ""⟩ :=
  C8_input_independent ⟨Method.GET, "/", [("a", "1")], [("x-h", "v")], "abc"⟩
    ⟨Method.GET, "/", [], [], ""⟩ rfl rfl rfl (by decide)

/-- C9: root and health are total constant functions: on every argument
they evaluate, without failing, to the respective literal dictionary. -/
theorem C9_handlers_constant :
    (∀ u : Unit, root u = Json.obj [("status", Json.str "running"),
      ("message", Json.str "GKE app deployed securely using Terraform + OIDC")]) ∧
    (∀ u : Unit, health u = Json.obj [("health", Json.str "ok")]) :=
  ⟨fun _ => rfl, fun _ => rfl⟩

/-- Counterexample to C10 as stated: a HEAD request to "/" receives 405,
not 200: FastAPI's APIRoute registers exactly GET for an @app.get route
and never adds HEAD. -/
theorem C10_head_counterexample :
    (handle ⟨Method.HEAD, "/", [], [], ""⟩).status = 405 ∧
    (handle ⟨Method.HEAD, "/", [], [], ""⟩).status ≠ 200 :=
  ⟨rfl, by decide⟩

/-- C10 amended: a route registered with @app.get serves GET only: a HEAD
request to "/" or "/health" receives status 405, method not allowed. -/
theorem C10_head_405 (r : Request) (hm : r.method = Method.HEAD)
    (hp : r.path = "/" ∨ r.path = "/health") :
    (handle r).status = 405 := by
  rcases hp with hp | hp
  · rw [handle_ext r ⟨Method.HEAD, "/", [], [], ""⟩ hm hp]
    rfl
  · rw [handle_ext r ⟨Method.HEAD, "/health", [], [], ""⟩ hm hp]
    rfl

/-- Witness for the amended C10 at a concrete HEAD request to "/". -/
theorem C10_head_405_witness :
    (handle ⟨Method.HEAD, "/", [], [], ""⟩).status = 405 :=
  C10_head_405 ⟨Method.HEAD, "/", [], [], ""⟩ rfl (Or.inl rfl)

end GkeApp
